import Mathlib

/-!
Shallow embedding of the Time-Tethered Aim Trainer core (src/game.py).

Modelling conventions:
* Timestamps (`time.time()` values) are rationals `ℚ`; the Python floats are
  rationals and every comparison the code performs on them is modelled exactly.
* Screen coordinates are integers (`random.randint` and pygame mouse positions
  are integers), so all geometry is exact integer arithmetic.
* `spawn_target` compares `((dx*dx+dy*dy) ** 0.5) < target_size * 2` on
  integer data; for integers in screen range the correctly rounded square root
  never crosses the integer bound `2*size`, so the comparison is equivalent to
  the exact squared comparison `dx*dx+dy*dy < (2*size)^2`, which is how the
  embedding states it.
* `random` draws (spawn candidate position) are inputs of the step functions:
  an oracle supplies the candidate the code would draw.
* Rendering-only state (colors, fonts, the mouse-trail deque, button hover
  colors) is dropped: it is never read by the game logic.
* Python's stable `list.sort(reverse=True)` on a list of integers produces the
  unique weakly-descending rearrangement, which is also what
  `List.insertionSort (· ≥ ·)` produces; the embedding uses the latter.
* `sys.exit` (process termination) is modelled by event handling returning
  `none`; file I/O of the leaderboard is modelled by a `saved` snapshot field
  standing for the durable file contents.
-/

/-- Game settings constant: WIDTH = 800. -/
def WIDTH : Int := 800

/-- Game settings constant: HEIGHT = 600. -/
def HEIGHT : Int := 600

/-- Game settings constant: GAME_DURATION = 30 seconds. -/
def GAME_DURATION : ℚ := 30

/-- Difficulty tiers: the three keys of DIFFICULTY_SETTINGS. -/
inductive Tier
  | Easy
  | Medium
  | Hard
deriving DecidableEq

/-- Tier name as the Python string key. -/
def Tier.name : Tier → String
  | Tier.Easy => "Easy"
  | Tier.Medium => "Medium"
  | Tier.Hard => "Hard"

/-- One entry of DIFFICULTY_SETTINGS. -/
structure Settings where
  target_size : Int
  spawn_rate : ℚ
  max_targets : Nat
deriving DecidableEq

/-- DIFFICULTY_SETTINGS table from game.py. -/
def DIFFICULTY_SETTINGS : Tier → Settings
  | Tier.Easy => { target_size := 40, spawn_rate := 3/2, max_targets := 4 }
  | Tier.Medium => { target_size := 30, spawn_rate := 1, max_targets := 6 }
  | Tier.Hard => { target_size := 20, spawn_rate := 7/10, max_targets := 8 }

/-- Target: position, size, hit flag and hit timestamp (Target.__init__).
The cosmetic random color is dropped; spawn_time is kept (set at creation)
though the logic never reads it. -/
structure Target where
  x : Int
  y : Int
  size : Int
  spawn_time : ℚ
  is_hit : Bool
  hit_time : ℚ
deriving DecidableEq

/-- Target.radius = size // 2 (Python floor division; sizes are positive so
Int division agrees). -/
def Target.radius (t : Target) : Int := t.size / 2

/-- Target.hit_animation_duration = 0.3 seconds. -/
def hit_animation_duration : ℚ := 3/10

/-- Target.is_clicked(pos): squared distance from click to center ≤ radius².
The source computes dx*dx + dy*dy <= radius*radius on integers. -/
def Target.is_clicked (t : Target) (pos : Int × Int) : Bool :=
  decide ((t.x - pos.1) * (t.x - pos.1) + (t.y - pos.2) * (t.y - pos.2)
    ≤ t.radius * t.radius)

/-- Target.hit(): set is_hit and record the hit timestamp. -/
def Target.hit (t : Target) (now : ℚ) : Target :=
  { t with is_hit := true, hit_time := now }

/-- Target.is_animation_finished(): False when not hit, else
(now − hit_time) ≥ hit_animation_duration. -/
def Target.is_animation_finished (t : Target) (now : ℚ) : Bool :=
  t.is_hit && decide (now - t.hit_time ≥ hit_animation_duration)

/-- Leaderboard state: the in-memory per-tier score lists (a Python dict,
modelled as an association list with unique keys) and the `saved` snapshot
standing for the contents of the durable JSON file. -/
structure Leaderboard where
  scores : List (String × List Int)
  saved : List (String × List Int)
deriving DecidableEq

/-- Leaderboard.__init__ default shape: the three tiers, each empty. -/
def Leaderboard.init : Leaderboard :=
  { scores := [("Easy", []), ("Medium", []), ("Hard", [])],
    saved := [("Easy", []), ("Medium", []), ("Hard", [])] }

/-- Dict write self.scores[k] = v: replace the value at an existing key,
append the binding when the key is absent (Python dicts keep insertion
order and have unique keys). -/
def setKey (m : List (String × List Int)) (k : String) (v : List Int) :
    List (String × List Int) :=
  match m with
  | [] => [(k, v)]
  | (k2, v2) :: rest => if k2 = k then (k, v) :: rest else (k2, v2) :: setKey rest k v

/-- Leaderboard.save(): persist the in-memory scores (the durable snapshot
becomes the current dict). -/
def Leaderboard.save (lb : Leaderboard) : Leaderboard :=
  { lb with saved := lb.scores }

/-- Leaderboard.add_score(difficulty, score): ensure the key exists, append,
sort descending, keep the top 10, save. The missing-key guard plus append
collapse to appending to the current list (default []). -/
def Leaderboard.add_score (lb : Leaderboard) (difficulty : String) (score : Int) :
    Leaderboard :=
  let cur := ((lb.scores.lookup difficulty).getD []) ++ [score]
  let sorted := cur.insertionSort (· ≥ ·)
  Leaderboard.save { lb with scores := setKey lb.scores difficulty (sorted.take 10) }

/-- Leaderboard.get_top_scores(difficulty, count=5): first count entries,
empty for an unknown tier. -/
def Leaderboard.get_top_scores (lb : Leaderboard) (difficulty : String)
    (count : Nat := 5) : List Int :=
  match lb.scores.lookup difficulty with
  | none => []
  | some l => l.take count

/-- Leaderboard.get_rank(difficulty, score): 1 for an unknown tier, else the
loop rank = 1; for s in scores: if s > score: rank += 1. -/
def Leaderboard.get_rank (lb : Leaderboard) (difficulty : String) (score : Int) :
    Nat :=
  match lb.scores.lookup difficulty with
  | none => 1
  | some l => l.foldl (fun rank s => if s > score then rank + 1 else rank) 1

/-- Session states: "home", "game", "game_over", "leaderboard". -/
inductive GState
  | home
  | game
  | game_over
  | leaderboard
deriving DecidableEq

/-- Button rectangle (pygame.Rect); hover colors are cosmetic and dropped. -/
structure Button where
  x : Int
  y : Int
  w : Int
  h : Int
deriving DecidableEq

/-- Button.is_clicked: pygame Rect.collidepoint — inclusive left/top edge,
exclusive right/bottom edge. -/
def Button.is_clicked (b : Button) (pos : Int × Int) : Bool :=
  decide (b.x ≤ pos.1 ∧ pos.1 < b.x + b.w ∧ b.y ≤ pos.2 ∧ pos.2 < b.y + b.h)

/-- setup_home_screen play button: 200×60 centered, y = HEIGHT//2 − 30. -/
def play_button : Button := { x := 300, y := 270, w := 200, h := 60 }

/-- setup_home_screen leaderboard button: 200×40, y = HEIGHT//2 + 50. -/
def leaderboard_button : Button := { x := 300, y := 350, w := 200, h := 40 }

/-- setup_home_screen difficulty buttons: 120×40 at y = HEIGHT//2 + 120,
start_x = 200, spaced 140 apart, in order Easy, Medium, Hard. -/
def difficulty_button : Tier → Button
  | Tier.Easy => { x := 200, y := 420, w := 120, h := 40 }
  | Tier.Medium => { x := 340, y := 420, w := 120, h := 40 }
  | Tier.Hard => { x := 480, y := 420, w := 120, h := 40 }

/-- Game state: the logic-bearing fields of the Game class. Buttons are the
constants above (only their colors change with the selection, which is
cosmetic), fonts/screen/mouse trail are rendering-only and dropped. -/
structure Game where
  state : GState
  difficulty : Tier
  target_size : Int
  spawn_rate : ℚ
  max_targets : Nat
  score : Int
  targets : List Target
  last_spawn_time : ℚ
  game_start_time : ℚ
  leaderboard : Leaderboard
deriving DecidableEq

/-- Game.reset_game(): apply the difficulty settings and reset the session
(score 0, no targets, both clocks at now). -/
def Game.reset_game (g : Game) (now : ℚ) : Game :=
  let s := DIFFICULTY_SETTINGS g.difficulty
  { g with target_size := s.target_size, spawn_rate := s.spawn_rate,
           max_targets := s.max_targets, score := 0, targets := [],
           last_spawn_time := now, game_start_time := now }

/-- Count of not-yet-hit targets: len([t for t in targets if not t.is_hit]). -/
def aliveCount (ts : List Target) : Nat :=
  (ts.filter (fun t => !t.is_hit)).length

/-- Spawn-candidate validity check of Game.spawn_target: every existing
target is either hit (skipped by the loop) or at Euclidean distance
≥ 2×target_size, stated as the exact squared comparison. -/
def valid_position (ts : List Target) (size : Int) (x y : Int) : Bool :=
  ts.all (fun t => t.is_hit ||
    decide ((t.x - x) * (t.x - x) + (t.y - y) * (t.y - y) ≥ (size * 2) * (size * 2)))

/-- Game.spawn_target(): when the alive count is below max_targets, draw a
candidate (supplied by the oracle `cand`) and append a new target iff the
candidate is valid. -/
def Game.spawn_target (g : Game) (now : ℚ) (cand : Int × Int) : Game :=
  if aliveCount g.targets < g.max_targets then
    if valid_position g.targets g.target_size cand.1 cand.2 then
      { g with targets := g.targets ++
          [{ x := cand.1, y := cand.2, size := g.target_size,
             spawn_time := now, is_hit := false, hit_time := 0 }] }
    else g
  else g

/-- Remaining session time as computed twice in game.py:
max(0, GAME_DURATION − (now − game_start_time)). -/
def remaining_time (start now : ℚ) : ℚ :=
  max 0 (GAME_DURATION - (now - start))

/-- Purge step of Game.update: targets = [t for t in targets if not
t.is_animation_finished()]. -/
def purgeExpired (ts : List Target) (now : ℚ) : List Target :=
  ts.filter (fun t => !t.is_animation_finished now)

/-- Game.update(): in the "game" state, check the game-over condition (commit
the score on expiry), attempt a spawn when the interval has elapsed
(resetting last_spawn_time on every attempt), and purge finished hit
animations. In "home"/"leaderboard" only button hover colors change
(cosmetic), so the model is the identity there. -/
def Game.update (g : Game) (now : ℚ) (cand : Int × Int) : Game :=
  match g.state with
  | GState.game =>
    let g1 :=
      if remaining_time g.game_start_time now ≤ 0 then
        { g with state := GState.game_over,
                 leaderboard := g.leaderboard.add_score g.difficulty.name g.score }
      else g
    let g2 :=
      if now - g1.last_spawn_time > g1.spawn_rate then
        { g1.spawn_target now cand with last_spawn_time := now }
      else g1
    { g2 with targets := purgeExpired g2.targets now }
  | _ => g

/-- Input events the logic reacts to: pygame.QUIT, Escape keydown, any other
keydown, and MOUSEBUTTONDOWN at a position. -/
inductive Event
  | quit
  | keydown_escape
  | keydown_other
  | mousedown (pos : Int × Int)
deriving DecidableEq

/-- Hit scan of the game-state MOUSEBUTTONDOWN branch: walk the targets in
spawn order, mark the first not-hit target containing the click and stop;
return the updated list and whether a hit occurred. -/
def clickTargets (ts : List Target) (pos : Int × Int) (now : ℚ) :
    List Target × Bool :=
  match ts with
  | [] => ([], false)
  | t :: rest =>
    if !t.is_hit && t.is_clicked pos then (t.hit now :: rest, true)
    else
      let r := clickTargets rest pos now
      (t :: r.1, r.2)

/-- Home-screen MOUSEBUTTONDOWN branch: the three button checks are
sequential independent ifs, exactly as in the source. -/
def Game.handle_home_click (g : Game) (now : ℚ) (pos : Int × Int) : Game :=
  let g1 := if play_button.is_clicked pos
    then Game.reset_game { g with state := GState.game } now else g
  let g2 := if leaderboard_button.is_clicked pos
    then { g1 with state := GState.leaderboard } else g1
  let g3 := if (difficulty_button Tier.Easy).is_clicked pos
    then { g2 with difficulty := Tier.Easy } else g2
  let g4 := if (difficulty_button Tier.Medium).is_clicked pos
    then { g3 with difficulty := Tier.Medium } else g3
  if (difficulty_button Tier.Hard).is_clicked pos
    then { g4 with difficulty := Tier.Hard } else g4

/-- Game.handle_events body for one event; `none` models sys.exit. -/
def Game.handle_event (g : Game) (now : ℚ) (ev : Event) : Option Game :=
  match ev with
  | Event.quit => none
  | Event.keydown_escape =>
    if g.state = GState.game ∨ g.state = GState.game_over ∨
        g.state = GState.leaderboard then
      some { g with state := GState.home }
    else none
  | Event.keydown_other => some g
  | Event.mousedown pos =>
    match g.state with
    | GState.home => some (g.handle_home_click now pos)
    | GState.game =>
      let r := clickTargets g.targets pos now
      if r.2 then some { g with targets := r.1, score := g.score + 1 }
      else some { g with targets := r.1, score := max 0 (g.score - 1) }
    | GState.game_over => some { g with state := GState.home }
    | GState.leaderboard => some { g with state := GState.home }

/-- Game.handle_events(): process the frame's event queue in order;
sys.exit aborts the rest of the queue (and all later frames). -/
def Game.handle_events (g : Game) (now : ℚ) : List Event → Option Game
  | [] => some g
  | ev :: rest =>
    match g.handle_event now ev with
    | none => none
    | some g2 => g2.handle_events now rest

/-! ## Helper lemmas -/

theorem clickTargets_snd (ts : List Target) (pos : Int × Int) (now : ℚ) :
    (clickTargets ts pos now).2 = ts.any (fun t => !t.is_hit && t.is_clicked pos) := by
  induction ts with
  | nil => simp [clickTargets]
  | cons t rest ih =>
    simp only [clickTargets, List.any_cons]
    by_cases h : (!t.is_hit && t.is_clicked pos) = true
    · simp [h]
    · simp [h, ih]

theorem spawn_target_parts (g : Game) (now : ℚ) (cand : Int × Int) :
    (g.spawn_target now cand).score = g.score ∧
    (g.spawn_target now cand).state = g.state ∧
    (g.spawn_target now cand).leaderboard = g.leaderboard ∧
    (g.spawn_target now cand).last_spawn_time = g.last_spawn_time ∧
    (g.spawn_target now cand).game_start_time = g.game_start_time ∧
    (g.spawn_target now cand).targets =
      g.targets ++
        (if aliveCount g.targets < g.max_targets ∧
            valid_position g.targets g.target_size cand.1 cand.2 = true then
          [{ x := cand.1, y := cand.2, size := g.target_size,
             spawn_time := now, is_hit := false, hit_time := 0 }]
        else []) := by
  unfold Game.spawn_target
  by_cases h1 : aliveCount g.targets < g.max_targets <;>
    by_cases h2 : valid_position g.targets g.target_size cand.1 cand.2 = true <;>
    simp [h1, h2]

theorem update_score_eq (g : Game) (now : ℚ) (cand : Int × Int) :
    (g.update now cand).score = g.score := by
  unfold Game.update
  cases hs : g.state <;> simp only []
  case game =>
    split <;> split <;> simp [(spawn_target_parts _ _ _).1]

/-! ## Claim C1: click scoring -/

/-- Claim C1: while the session is Playing, processing a click yields a
successor state whose score is the old score plus 1 when some alive target
contains the click, and max(0, score − 1) otherwise; hence a non-negative
score stays non-negative across a click, and the reset/update steps keep
the score non-negative as well (reset sets it to 0, update never changes
it). -/
theorem claim_C1 (g : Game) (now : ℚ) (pos : Int × Int) (cand : Int × Int)
    (h : g.state = GState.game) :
    (∃ g2, g.handle_event now (Event.mousedown pos) = some g2 ∧
      g2.score = (if g.targets.any (fun t => !t.is_hit && t.is_clicked pos)
        then g.score + 1 else max 0 (g.score - 1)) ∧
      (0 ≤ g.score → 0 ≤ g2.score)) ∧
    (g.reset_game now).score = 0 ∧
    (g.update now cand).score = g.score := by
  refine ⟨?_, rfl, update_score_eq g now cand⟩
  simp only [Game.handle_event, h]
  rw [clickTargets_snd]
  by_cases hany : g.targets.any (fun t => !t.is_hit && t.is_clicked pos) = true
  · rw [if_pos hany]
    refine ⟨_, rfl, ?_, ?_⟩
    · simp [hany]
    · intro h0
      simp only []
      omega
  · rw [if_neg hany]
    refine ⟨_, rfl, ?_, ?_⟩
    · simp [hany]
    · intro h0
      simp only []
      exact le_max_left 0 _

/-- Concrete session state used to instantiate the claim C1 theorem:
Playing, score 0, no targets, Medium settings. -/
def gC1 : Game :=
  { state := GState.game, difficulty := Tier.Medium, target_size := 30,
    spawn_rate := 1, max_targets := 6, score := 0, targets := [],
    last_spawn_time := 0, game_start_time := 0, leaderboard := Leaderboard.init }

/-- Witness for claim C1 at a concrete Playing state: a click with no
targets on screen (a miss from score 0). -/
theorem claim_C1_witness :
    (∃ g2, gC1.handle_event 1 (Event.mousedown (5, 5)) = some g2 ∧
      g2.score = (if gC1.targets.any (fun t => !t.is_hit && t.is_clicked (5, 5))
        then gC1.score + 1 else max 0 (gC1.score - 1)) ∧
      (0 ≤ gC1.score → 0 ≤ g2.score)) ∧
    (gC1.reset_game 1).score = 0 ∧
    (gC1.update 1 (7, 7)).score = gC1.score :=
  claim_C1 gC1 1 (5, 5) (7, 7) rfl

/-- Decomposition of Game.update in the "game" state: the state and
leaderboard follow the game-over check, the spawn timer resets exactly when
the interval has elapsed, and the resulting target list is the purged old
list plus the new target when the attempt both fires and succeeds. -/
theorem update_game_parts (g : Game) (now : ℚ) (cand : Int × Int)
    (h : g.state = GState.game) :
    ((g.update now cand).state =
      if remaining_time g.game_start_time now ≤ 0 then GState.game_over
      else GState.game) ∧
    ((g.update now cand).leaderboard =
      if remaining_time g.game_start_time now ≤ 0 then
        g.leaderboard.add_score g.difficulty.name g.score
      else g.leaderboard) ∧
    ((g.update now cand).last_spawn_time =
      if now - g.last_spawn_time > g.spawn_rate then now else g.last_spawn_time) ∧
    ((g.update now cand).game_start_time = g.game_start_time) ∧
    ((g.update now cand).targets =
      purgeExpired g.targets now ++
        (if now - g.last_spawn_time > g.spawn_rate ∧
            aliveCount g.targets < g.max_targets ∧
            valid_position g.targets g.target_size cand.1 cand.2 = true then
          [{ x := cand.1, y := cand.2, size := g.target_size,
             spawn_time := now, is_hit := false, hit_time := 0 }]
        else [])) := by
  simp only [Game.update, h]
  by_cases h1 : remaining_time g.game_start_time now ≤ 0 <;>
    by_cases h2 : now - g.last_spawn_time > g.spawn_rate <;>
    by_cases h3 : aliveCount g.targets < g.max_targets <;>
    by_cases h4 : valid_position g.targets g.target_size cand.1 cand.2 = true <;>
    simp [h, h1, h2, h3, h4, Game.spawn_target, purgeExpired,
      List.filter_append, Target.is_animation_finished]

/-! ## Claim C2: countdown and the game-over transition -/

/-- Claim C2: remaining time is max(0, GAME_DURATION − (now − start)),
non-increasing in now and never negative; while Playing, one update step
moves the session to GameOver exactly when the remaining time is 0 and
commits the score to the leaderboard under the current tier exactly on
that transition; event handling (any event) never produces GameOver from
Playing and never touches the leaderboard, and update outside Playing
changes nothing — so clock expiry is the sole way a session terminates
and the sole way a score is committed. -/
theorem claim_C2 (g : Game) (start now now1 now2 : ℚ) (cand : Int × Int)
    (ev : Event) :
    (now1 ≤ now2 → remaining_time start now2 ≤ remaining_time start now1) ∧
    (0 ≤ remaining_time start now) ∧
    (g.state = GState.game →
      (((g.update now cand).state = GState.game_over) ↔
        remaining_time g.game_start_time now = 0)) ∧
    (g.state = GState.game →
      (g.update now cand).leaderboard =
        (if remaining_time g.game_start_time now = 0 then
          g.leaderboard.add_score g.difficulty.name g.score
        else g.leaderboard)) ∧
    (g.state = GState.game → ∀ g2, g.handle_event now ev = some g2 →
      g2.state ≠ GState.game_over ∧ g2.leaderboard = g.leaderboard) ∧
    (g.state ≠ GState.game → g.update now cand = g) := by
  have hzero : ∀ s n : ℚ, remaining_time s n ≤ 0 ↔ remaining_time s n = 0 := by
    intro s n
    constructor
    · intro hle
      exact le_antisymm hle (le_max_left 0 _)
    · intro heq
      exact le_of_eq heq
  refine ⟨?_, le_max_left 0 _, ?_, ?_, ?_, ?_⟩
  · intro h12
    unfold remaining_time
    exact max_le_max le_rfl (by linarith)
  · intro h
    rw [(update_game_parts g now cand h).1, ← hzero]
    by_cases h1 : remaining_time g.game_start_time now ≤ 0 <;> simp [h1]
  · intro h
    rw [(update_game_parts g now cand h).2.1]
    by_cases h1 : remaining_time g.game_start_time now ≤ 0
    · rw [if_pos h1, if_pos ((hzero _ _).mp h1)]
    · rw [if_neg h1, if_neg (fun he => h1 ((hzero _ _).mpr he))]
  · intro h g2 hev
    cases ev with
    | quit => exact absurd hev (by simp [Game.handle_event])
    | keydown_escape =>
      simp only [Game.handle_event, h, eq_self_iff_true, true_or, if_true,
        Option.some.injEq] at hev
      subst hev
      exact ⟨by simp, rfl⟩
    | keydown_other =>
      simp only [Game.handle_event] at hev
      cases hev
      exact ⟨by simp [h], rfl⟩
    | mousedown pos =>
      simp only [Game.handle_event, h] at hev
      by_cases hc : (clickTargets g.targets pos now).2 = true <;>
        simp only [hc, if_true, if_false, Bool.false_eq_true] at hev <;>
        cases hev <;> exact ⟨by simp [h], rfl⟩
  · intro h
    unfold Game.update
    cases hs : g.state <;> simp_all

/-- Concrete session state used to instantiate the claim C2 theorem:
Playing with the clock expired at now = 31. -/
def gC2 : Game :=
  { state := GState.game, difficulty := Tier.Medium, target_size := 30,
    spawn_rate := 1, max_targets := 6, score := 2, targets := [],
    last_spawn_time := 0, game_start_time := 0, leaderboard := Leaderboard.init }

/-- Witness for claim C2: at now = 31 the remaining time of a session
started at 0 is 0, so the update step reaches GameOver and commits the
score, and an Escape processed instead stays clear of GameOver. -/
theorem claim_C2_witness :
    (1 ≤ (31 : ℚ) → remaining_time 0 31 ≤ remaining_time 0 1) ∧
    (0 ≤ remaining_time 0 31) ∧
    (gC2.state = GState.game →
      (((gC2.update 31 (7, 7)).state = GState.game_over) ↔
        remaining_time gC2.game_start_time 31 = 0)) ∧
    (gC2.state = GState.game →
      (gC2.update 31 (7, 7)).leaderboard =
        (if remaining_time gC2.game_start_time 31 = 0 then
          gC2.leaderboard.add_score gC2.difficulty.name gC2.score
        else gC2.leaderboard)) ∧
    (gC2.state = GState.game → ∀ g2,
      gC2.handle_event 31 Event.keydown_escape = some g2 →
      g2.state ≠ GState.game_over ∧ g2.leaderboard = gC2.leaderboard) ∧
    (gC2.state ≠ GState.game → gC2.update 31 (7, 7) = gC2) :=
  claim_C2 gC2 0 31 1 31 (7, 7) Event.keydown_escape

/-! ## Claim C3: spawn cadence and candidate acceptance -/

/-- Claim C3: during Playing an update attempts a spawn iff the elapsed time
since the last spawn strictly exceeds the spawn interval, and the spawn
timer is set to now on every attempt whether or not a target was created;
the attempt creates (appends) a target iff the alive count is below
max_targets and the candidate is valid; a candidate is valid iff every
existing target is Hit or at squared distance ≥ (2×size)² — so a strictly
smaller distance to any alive target rejects, exactly 2×size accepts, and
Hit targets never block (validity only depends on the alive targets). -/
theorem claim_C3 (g : Game) (now : ℚ) (cand : Int × Int) (ts : List Target)
    (s x y : Int) (h : g.state = GState.game) :
    ((g.update now cand).last_spawn_time =
      if now - g.last_spawn_time > g.spawn_rate then now else g.last_spawn_time) ∧
    ((g.update now cand).targets =
      purgeExpired g.targets now ++
        (if now - g.last_spawn_time > g.spawn_rate ∧
            aliveCount g.targets < g.max_targets ∧
            valid_position g.targets g.target_size cand.1 cand.2 = true then
          [{ x := cand.1, y := cand.2, size := g.target_size,
             spawn_time := now, is_hit := false, hit_time := 0 }]
        else [])) ∧
    (valid_position ts s x y = true ↔
      ∀ t ∈ ts, t.is_hit = true ∨
        (t.x - x) * (t.x - x) + (t.y - y) * (t.y - y) ≥ (s * 2) * (s * 2)) ∧
    (valid_position ts s x y =
      valid_position (ts.filter (fun t => !t.is_hit)) s x y) := by
  refine ⟨(update_game_parts g now cand h).2.2.1,
    (update_game_parts g now cand h).2.2.2.2, ?_, ?_⟩
  · simp [valid_position, List.all_eq_true]
  · induction ts with
    | nil => rfl
    | cons t rest ih =>
      by_cases hhit : t.is_hit = true <;>
        simp [valid_position, hhit] at ih ⊢

/-- Concrete session state used to instantiate the claim C3 theorem:
Playing with the spawn interval already elapsed. -/
def gC3 : Game :=
  { state := GState.game, difficulty := Tier.Medium, target_size := 30,
    spawn_rate := 1, max_targets := 6, score := 0, targets := [],
    last_spawn_time := 0, game_start_time := 0, leaderboard := Leaderboard.init }

/-- Witness for claim C3: an update at now = 2 with an empty field, checked
against a separate candidate query at exactly 2×size from one alive
target of size 30. -/
theorem claim_C3_witness :
    ((gC3.update 2 (100, 100)).last_spawn_time =
      if 2 - gC3.last_spawn_time > gC3.spawn_rate then 2 else gC3.last_spawn_time) ∧
    ((gC3.update 2 (100, 100)).targets =
      purgeExpired gC3.targets 2 ++
        (if 2 - gC3.last_spawn_time > gC3.spawn_rate ∧
            aliveCount gC3.targets < gC3.max_targets ∧
            valid_position gC3.targets gC3.target_size 100 100 = true then
          [{ x := 100, y := 100, size := gC3.target_size,
             spawn_time := 2, is_hit := false, hit_time := 0 }]
        else [])) ∧
    (valid_position
        [{ x := 160, y := 100, size := 30, spawn_time := 0,
           is_hit := false, hit_time := 0 }] 30 100 100 = true ↔
      ∀ t ∈ [({ x := 160, y := 100, size := 30, spawn_time := 0,
                is_hit := false, hit_time := 0 } : Target)],
        t.is_hit = true ∨
          (t.x - 100) * (t.x - 100) + (t.y - 100) * (t.y - 100) ≥
            (30 * 2) * (30 * 2)) ∧
    (valid_position
        [{ x := 160, y := 100, size := 30, spawn_time := 0,
           is_hit := false, hit_time := 0 }] 30 100 100 =
      valid_position
        (List.filter (fun t => !t.is_hit)
          [{ x := 160, y := 100, size := 30, spawn_time := 0,
             is_hit := false, hit_time := 0 }]) 30 100 100) :=
  claim_C3 gC3 2 (100, 100)
    [{ x := 160, y := 100, size := 30, spawn_time := 0,
       is_hit := false, hit_time := 0 }] 30 100 100 rfl

/-! ## Claim C4: first-match hit resolution -/

theorem clickTargets_append_first (pre post : List Target) (t : Target)
    (pos : Int × Int) (now : ℚ)
    (hpre : ∀ u ∈ pre, u.is_hit = true ∨ u.is_clicked pos = false)
    (ht : t.is_hit = false) (hc : t.is_clicked pos = true) :
    clickTargets (pre ++ t :: post) pos now = (pre ++ t.hit now :: post, true) := by
  induction pre with
  | nil => simp [clickTargets, ht, hc]
  | cons u rest ih =>
    have hu : (!u.is_hit && u.is_clicked pos) = false := by
      rcases hpre u (by simp) with h1 | h1 <;> simp [h1]
    simp only [List.cons_append, clickTargets, hu, Bool.false_eq_true, if_false,
      List.append_eq]
    rw [ih (fun v hv => hpre v (by simp [hv]))]

/-- Claim C4: containment is the exact squared-distance test against
radius², and when the Playing target list is pre ++ t :: post where no
target of pre is both Alive and containing the click while t is, the click
marks exactly t as Hit (recording now as its hit timestamp), leaves every
other target unchanged, and increments the score exactly once. -/
theorem claim_C4 (g : Game) (now : ℚ) (pos : Int × Int) (u t : Target)
    (pre post : List Target) (h : g.state = GState.game)
    (hts : g.targets = pre ++ t :: post)
    (hpre : ∀ v ∈ pre, v.is_hit = true ∨ v.is_clicked pos = false)
    (ht : t.is_hit = false) (hc : t.is_clicked pos = true) :
    (u.is_clicked pos = true ↔
      (u.x - pos.1) * (u.x - pos.1) + (u.y - pos.2) * (u.y - pos.2) ≤
        u.radius * u.radius) ∧
    g.handle_event now (Event.mousedown pos) =
      some { g with targets := pre ++ t.hit now :: post, score := g.score + 1 } := by
  constructor
  · simp [Target.is_clicked]
  · simp [Game.handle_event, h, hts, clickTargets_append_first pre post t pos now hpre ht hc]

/-- Concrete session state used to instantiate the claim C4 theorem: a hit
target and a far-away alive target precede an alive containing target,
and another containing target follows it. -/
def gC4 : Game :=
  { state := GState.game, difficulty := Tier.Medium, target_size := 30,
    spawn_rate := 1, max_targets := 6, score := 3,
    targets :=
      [{ x := 100, y := 100, size := 30, spawn_time := 0, is_hit := true, hit_time := 4 },
       { x := 500, y := 500, size := 30, spawn_time := 0, is_hit := false, hit_time := 0 },
       { x := 105, y := 100, size := 30, spawn_time := 1, is_hit := false, hit_time := 0 },
       { x := 110, y := 100, size := 30, spawn_time := 2, is_hit := false, hit_time := 0 }],
    last_spawn_time := 0, game_start_time := 0, leaderboard := Leaderboard.init }

/-- Witness for claim C4: clicking (100, 100) on gC4 hits the third target
(the first Alive one containing the point — an already-Hit overlapping
target and a far-away one come before it), not the fourth. -/
theorem claim_C4_witness :
    (({ x := 100, y := 100, size := 30, spawn_time := 0, is_hit := true,
        hit_time := 4 } : Target).is_clicked (100, 100) = true ↔
      ((100 : Int) - 100) * (100 - 100) + ((100 : Int) - 100) * (100 - 100) ≤
        ({ x := 100, y := 100, size := 30, spawn_time := 0, is_hit := true,
           hit_time := 4 } : Target).radius *
          ({ x := 100, y := 100, size := 30, spawn_time := 0, is_hit := true,
             hit_time := 4 } : Target).radius) ∧
    gC4.handle_event 5 (Event.mousedown (100, 100)) =
      some { gC4 with
        targets :=
          [{ x := 100, y := 100, size := 30, spawn_time := 0, is_hit := true, hit_time := 4 },
           { x := 500, y := 500, size := 30, spawn_time := 0, is_hit := false, hit_time := 0 }] ++
          Target.hit { x := 105, y := 100, size := 30, spawn_time := 1,
                       is_hit := false, hit_time := 0 } 5 ::
          [{ x := 110, y := 100, size := 30, spawn_time := 2, is_hit := false, hit_time := 0 }],
        score := gC4.score + 1 } :=
  claim_C4 gC4 5 (100, 100)
    { x := 100, y := 100, size := 30, spawn_time := 0, is_hit := true, hit_time := 4 }
    { x := 105, y := 100, size := 30, spawn_time := 1, is_hit := false, hit_time := 0 }
    [{ x := 100, y := 100, size := 30, spawn_time := 0, is_hit := true, hit_time := 4 },
     { x := 500, y := 500, size := 30, spawn_time := 0, is_hit := false, hit_time := 0 }]
    [{ x := 110, y := 100, size := 30, spawn_time := 2, is_hit := false, hit_time := 0 }]
    rfl rfl (by decide) rfl (by decide)

/-! ## Claim C5: leaderboard insertion invariant -/

theorem lookup_setKey (m : List (String × List Int)) (k : String)
    (v : List Int) : (setKey m k v).lookup k = some v := by
  induction m with
  | nil => simp [setKey]
  | cons p rest ih =>
    obtain ⟨k2, v2⟩ := p
    by_cases hk : k2 = k
    · simp [setKey, hk, List.lookup]
    · have hbeq : (k == k2) = false := beq_eq_false_iff_ne.mpr (Ne.symm hk)
      simp [setKey, hk, List.lookup, hbeq, ih]

/-- Claim C5: after add_score(tier, score) the stored list for that tier is
weakly descending, has at most 10 entries, and consists of the largest
values of the multiset old ++ [score] (every dropped value is ≤ every kept
value, equal values both retained); the store is persisted immediately
(the durable snapshot equals the in-memory dict). Concretely, adding
50, 80, 30, 80 to "Easy" stores [80, 80, 50, 30], and adding an 11th
score to a tier with 1..10 drops the lowest of the 11. -/
theorem claim_C5 (lb : Leaderboard) (tier : String) (score : Int) :
    List.Sorted (· ≥ ·) (((lb.add_score tier score).scores.lookup tier).getD []) ∧
    (((lb.add_score tier score).scores.lookup tier).getD []).length ≤ 10 ∧
    (∃ dropped,
      ((lb.scores.lookup tier).getD [] ++ [score]).Perm
        ((((lb.add_score tier score).scores.lookup tier).getD []) ++ dropped) ∧
      ∀ d ∈ dropped, ∀ k ∈ ((lb.add_score tier score).scores.lookup tier).getD [],
        d ≤ k) ∧
    (lb.add_score tier score).saved = (lb.add_score tier score).scores ∧
    ((((Leaderboard.init.add_score "Easy" 50).add_score "Easy" 80).add_score
        "Easy" 30).add_score "Easy" 80).scores.lookup "Easy" =
      some [80, 80, 50, 30] ∧
    (({ scores := [("Easy", [10, 9, 8, 7, 6, 5, 4, 3, 2, 1])],
        saved := [("Easy", [10, 9, 8, 7, 6, 5, 4, 3, 2, 1])] } :
        Leaderboard).add_score "Easy" 11).scores.lookup "Easy" =
      some [11, 10, 9, 8, 7, 6, 5, 4, 3, 2] := by
  have hstored : ((lb.add_score tier score).scores.lookup tier).getD [] =
      (((lb.scores.lookup tier).getD [] ++ [score]).insertionSort (· ≥ ·)).take 10 := by
    simp [Leaderboard.add_score, Leaderboard.save, lookup_setKey]
  have hsorted : List.Sorted (· ≥ ·)
      (((lb.scores.lookup tier).getD [] ++ [score]).insertionSort (· ≥ ·)) :=
    List.sorted_insertionSort (· ≥ ·) _
  refine ⟨?_, ?_, ?_, rfl, by decide, by decide⟩
  · rw [hstored]
    exact hsorted.sublist (List.take_sublist _ _)
  · rw [hstored]
    exact List.length_take_le _ _
  · refine ⟨(((lb.scores.lookup tier).getD [] ++ [score]).insertionSort
      (· ≥ ·)).drop 10, ?_, ?_⟩
    · rw [hstored, List.take_append_drop]
      exact (List.perm_insertionSort _ _).symm
    · intro d hd k hk
      rw [hstored] at hk
      have hsplit := hsorted
      rw [← List.take_append_drop 10
        (((lb.scores.lookup tier).getD [] ++ [score]).insertionSort (· ≥ ·))] at hsplit
      exact (List.pairwise_append.mp hsplit).2.2 k hk d hd

/-! ## Claim C6: rank computation -/

theorem rank_foldl (score : Int) (l : List Int) (n : Nat) :
    l.foldl (fun rank s => if s > score then rank + 1 else rank) n =
      n + l.countP (fun s => decide (s > score)) := by
  induction l generalizing n with
  | nil => simp
  | cons s rest ih =>
    by_cases hs : s > score <;>
      simp [List.countP_cons, hs, ih] ; omega

/-- Claim C6: get_rank(tier, score) is 1 plus the number of stored scores in
that tier strictly greater than score (equal scores do not count), hence it
is always ≥ 1; it is 1 for a tier absent from the store, and 1 whenever the
score is at least every stored score. -/
theorem claim_C6 (lb : Leaderboard) (tier : String) (score : Int) :
    lb.get_rank tier score =
      1 + ((lb.scores.lookup tier).getD []).countP (fun s => decide (s > score)) ∧
    1 ≤ lb.get_rank tier score ∧
    (lb.scores.lookup tier = none → lb.get_rank tier score = 1) ∧
    ((∀ s ∈ (lb.scores.lookup tier).getD [], s ≤ score) →
      lb.get_rank tier score = 1) := by
  have hmain : lb.get_rank tier score =
      1 + ((lb.scores.lookup tier).getD []).countP (fun s => decide (s > score)) := by
    unfold Leaderboard.get_rank
    cases hl : lb.scores.lookup tier with
    | none => simp
    | some l => simp [rank_foldl]
  refine ⟨hmain, by omega, ?_, ?_⟩
  · intro hnone
    unfold Leaderboard.get_rank
    rw [hnone]
  · intro hle
    rw [hmain]
    have : ((lb.scores.lookup tier).getD []).countP (fun s => decide (s > score)) = 0 := by
      rw [List.countP_eq_zero]
      intro s hs
      simpa using not_lt.mpr (hle s hs)
    omega

/-- Concrete leaderboard used to instantiate the claim C6 theorem. -/
def lbC6 : Leaderboard :=
  { scores := [("Easy", [80, 80, 50, 30])], saved := [("Easy", [80, 80, 50, 30])] }

/-- Witness for claim C6 on a concrete store: the tier "Hard" is absent
(rank 1) and the score 80 is at least every stored "Easy" score (rank 1). -/
theorem claim_C6_witness :
    (lbC6.get_rank "Hard" 99 =
      1 + ((lbC6.scores.lookup "Hard").getD []).countP (fun s => decide (s > 99)) ∧
      1 ≤ lbC6.get_rank "Hard" 99 ∧
      (lbC6.scores.lookup "Hard" = none → lbC6.get_rank "Hard" 99 = 1) ∧
      ((∀ s ∈ (lbC6.scores.lookup "Hard").getD [], s ≤ 99) →
        lbC6.get_rank "Hard" 99 = 1)) ∧
    lbC6.scores.lookup "Hard" = none ∧
    ((∀ s ∈ (lbC6.scores.lookup "Easy").getD [], s ≤ 80) →
      lbC6.get_rank "Easy" 80 = 1) ∧
    (∀ s ∈ (lbC6.scores.lookup "Easy").getD [], s ≤ 80) :=
  ⟨claim_C6 lbC6 "Hard" 99, by decide,
    (claim_C6 lbC6 "Easy" 80).2.2.2, by decide⟩

/-! ## Claim C7: the worked leaderboard/rank example of the spec -/

/-- Leaderboard obtained by adding 50, 80, 30, 80 to tier "Easy", as in the
spec's worked example. -/
def lbC7 : Leaderboard :=
  (((Leaderboard.init.add_score "Easy" 50).add_score "Easy" 80).add_score
    "Easy" 30).add_score "Easy" 80

/-- Counterexample to claim C7 as stated: with stored sequence
[80, 80, 50, 30], getRank("Easy", 40) is 4 (three stored scores — 80, 80
and 50 — are strictly greater than 40), not 3. -/
theorem claim_C7_counterexample :
    ¬(lbC7.get_rank "Easy" 80 = 1 ∧ lbC7.get_rank "Easy" 40 = 3) := by
  decide

/-- Claim C7 amended: after adding 50, 80, 30, 80 to "Easy" the stored
sequence is [80, 80, 50, 30], getRank("Easy", 80) is 1 and
getRank("Easy", 40) is 4. -/
theorem claim_C7 :
    lbC7.scores.lookup "Easy" = some [80, 80, 50, 30] ∧
    lbC7.get_rank "Easy" 80 = 1 ∧
    lbC7.get_rank "Easy" 40 = 4 := by
  decide

/-! ## Claim C8: purge of expired hit animations -/

/-- Claim C8: purgeExpired removes exactly the targets that are Hit with
(now − hitTimestamp) ≥ 0.3s — a member of the input survives iff it is not
such a target, and Alive targets always survive — it preserves the
relative order of survivors (the result is a sublist of the input), and it
is idempotent at the same now. -/
theorem claim_C8 (ts : List Target) (now : ℚ) (t : Target) :
    (t ∈ ts →
      (t ∈ purgeExpired ts now ↔
        ¬(t.is_hit = true ∧ now - t.hit_time ≥ hit_animation_duration))) ∧
    (t.is_hit = false → (t ∈ purgeExpired ts now ↔ t ∈ ts)) ∧
    (purgeExpired ts now).Sublist ts ∧
    purgeExpired (purgeExpired ts now) now = purgeExpired ts now := by
  refine ⟨?_, ?_, List.filter_sublist ts, ?_⟩
  · intro hmem
    by_cases ht : t.is_hit = true <;>
      simp [purgeExpired, Target.is_animation_finished, List.mem_filter, hmem,
        ht, not_le]
  · intro halive
    simp [purgeExpired, Target.is_animation_finished, List.mem_filter, halive]
  · simp [purgeExpired, List.filter_filter]

/-- Expired Hit target used in the claim C8 witness (hit at time 1). -/
def tC8 : Target :=
  { x := 10, y := 10, size := 30, spawn_time := 0, is_hit := true, hit_time := 1 }

/-- Concrete target list used to instantiate the claim C8 theorem: the
expired Hit target tC8, a fresh Hit target, and an Alive target. -/
def tsC8 : List Target :=
  [tC8,
   { x := 200, y := 200, size := 30, spawn_time := 0, is_hit := true, hit_time := 2 },
   { x := 400, y := 400, size := 30, spawn_time := 0, is_hit := false, hit_time := 0 }]

/-- Witness for claim C8 at now = 2.1: the target hit at time 1 is expired
and removed, the target hit at time 2 and the Alive target survive, and a
second purge changes nothing. -/
theorem claim_C8_witness :
    ((tC8 ∈ tsC8 →
      (tC8 ∈ purgeExpired tsC8 (21/10) ↔
        ¬(tC8.is_hit = true ∧ (21/10 : ℚ) - tC8.hit_time ≥ hit_animation_duration))) ∧
     (tC8.is_hit = false → (tC8 ∈ purgeExpired tsC8 (21/10) ↔ tC8 ∈ tsC8)) ∧
     (purgeExpired tsC8 (21/10)).Sublist tsC8 ∧
     purgeExpired (purgeExpired tsC8 (21/10)) (21/10) = purgeExpired tsC8 (21/10)) ∧
    tC8 ∈ tsC8 ∧
    purgeExpired tsC8 (21/10) = tsC8.drop 1 :=
  ⟨claim_C8 tsC8 (21/10) tC8, by simp [tsC8],
   by norm_num [purgeExpired, tsC8, tC8, Target.is_animation_finished,
     hit_animation_duration]⟩

/-! ## Claim C9: Escape handling -/

/-- Claim C9: pressing Escape in Playing, GameOver or Leaderboard goes to
Home (in particular from Playing it reaches Home with the leaderboard
untouched — no score committed), while Escape at Home terminates the
process (the rest of the frame's event queue, and hence every later frame,
is never processed). -/
theorem claim_C9 (g : Game) (now : ℚ) (rest : List Event) :
    (g.handle_event now Event.keydown_escape =
      if g.state = GState.home then none
      else some { g with state := GState.home }) ∧
    (g.state = GState.game → ∃ g2,
      g.handle_event now Event.keydown_escape = some g2 ∧
      g2.state = GState.home ∧ g2.leaderboard = g.leaderboard) ∧
    (g.state = GState.home →
      g.handle_events now (Event.keydown_escape :: rest) = none) := by
  have h1 : g.handle_event now Event.keydown_escape =
      if g.state = GState.home then none
      else some { g with state := GState.home } := by
    unfold Game.handle_event
    cases hs : g.state <;> simp
  refine ⟨h1, ?_, ?_⟩
  · intro hg
    rw [h1, hg, if_neg (by simp)]
    exact ⟨_, rfl, rfl, rfl⟩
  · intro hh
    simp [Game.handle_events, h1, hh]

/-- Concrete Playing-state game used to instantiate the claim C9 theorem. -/
def gC9 : Game :=
  { state := GState.game, difficulty := Tier.Hard, target_size := 20,
    spawn_rate := 7/10, max_targets := 8, score := 5, targets := [],
    last_spawn_time := 3, game_start_time := 0, leaderboard := Leaderboard.init }

/-- Concrete Home-state game used to instantiate the claim C9 theorem. -/
def gC9home : Game :=
  { state := GState.home, difficulty := Tier.Hard, target_size := 20,
    spawn_rate := 7/10, max_targets := 8, score := 0, targets := [],
    last_spawn_time := 0, game_start_time := 0, leaderboard := Leaderboard.init }

/-- Witness for claim C9: Escape from a concrete Playing state reaches Home
with the leaderboard untouched, and Escape at Home aborts the rest of the
event queue. -/
theorem claim_C9_witness :
    (∃ g2, gC9.handle_event 4 Event.keydown_escape = some g2 ∧
      g2.state = GState.home ∧ g2.leaderboard = gC9.leaderboard) ∧
    gC9home.handle_events 4
      (Event.keydown_escape :: [Event.mousedown (400, 300)]) = none :=
  ⟨(claim_C9 gC9 4 []).2.1 rfl,
   (claim_C9 gC9home 4 [Event.mousedown (400, 300)]).2.2 rfl⟩

/-! ## Claim C10: pairwise separation of alive targets (implicit invariant) -/

/-- Pairwise-separation invariant: any two targets of the active list are
either (one of them) Hit, or at squared Euclidean distance at least
(2×size)² from each other. -/
def separated (ts : List Target) (s : Int) : Prop :=
  ts.Pairwise (fun a b => a.is_hit = true ∨ b.is_hit = true ∨
    (a.x - b.x) * (a.x - b.x) + (a.y - b.y) * (a.y - b.y) ≥ (s * 2) * (s * 2))

instance (ts : List Target) (s : Int) : Decidable (separated ts s) :=
  List.instDecidablePairwise ts

theorem valid_position_sound (ts : List Target) (s x y : Int)
    (hv : valid_position ts s x y = true) :
    ∀ t ∈ ts, t.is_hit = true ∨
      (t.x - x) * (t.x - x) + (t.y - y) * (t.y - y) ≥ (s * 2) * (s * 2) := by
  intro t ht
  have := (List.all_eq_true.mp hv) t ht
  rcases Bool.or_eq_true_iff.mp this with h | h
  · exact Or.inl h
  · exact Or.inr (of_decide_eq_true h)

theorem clickTargets_mem (ts : List Target) (pos : Int × Int) (now : ℚ) :
    ∀ u ∈ (clickTargets ts pos now).1, u ∈ ts ∨ ∃ v ∈ ts, u = v.hit now := by
  induction ts with
  | nil => simp [clickTargets]
  | cons t rest ih =>
    intro u hu
    by_cases hc : (!t.is_hit && t.is_clicked pos) = true
    · simp only [clickTargets, hc, if_true] at hu
      rcases List.mem_cons.mp hu with rfl | hu2
      · exact Or.inr ⟨t, List.mem_cons_self t rest, rfl⟩
      · exact Or.inl (List.mem_cons_of_mem t hu2)
    · simp only [clickTargets, hc, Bool.false_eq_true, if_false] at hu
      rcases List.mem_cons.mp hu with rfl | hu2
      · exact Or.inl (List.mem_cons_self u rest)
      · rcases ih u hu2 with h | ⟨v, hv, rfl⟩
        · exact Or.inl (List.mem_cons_of_mem t h)
        · exact Or.inr ⟨v, List.mem_cons_of_mem t hv, rfl⟩

theorem sep_clickTargets (ts : List Target) (pos : Int × Int) (now : ℚ)
    (s : Int) (hsep : separated ts s) :
    separated (clickTargets ts pos now).1 s := by
  induction ts with
  | nil => exact hsep
  | cons t rest ih =>
    rw [separated, List.pairwise_cons] at hsep
    by_cases hc : (!t.is_hit && t.is_clicked pos) = true
    · simp only [clickTargets, hc, if_true]
      rw [separated, List.pairwise_cons]
      exact ⟨fun u hu => Or.inl rfl, hsep.2⟩
    · simp only [clickTargets, hc, Bool.false_eq_true, if_false]
      rw [separated, List.pairwise_cons]
      refine ⟨fun u hu => ?_, ih hsep.2⟩
      rcases clickTargets_mem rest pos now u hu with h | ⟨v, hv, rfl⟩
      · exact hsep.1 u h
      · exact Or.inr (Or.inl rfl)

theorem handle_home_click_targets (g : Game) (now : ℚ) (pos : Int × Int) :
    (g.handle_home_click now pos).targets = [] ∨
    ((g.handle_home_click now pos).targets = g.targets ∧
      (g.handle_home_click now pos).target_size = g.target_size) := by
  unfold Game.handle_home_click Game.reset_game
  by_cases h1 : play_button.is_clicked pos = true <;>
    by_cases h2 : leaderboard_button.is_clicked pos = true <;>
    by_cases h3 : (difficulty_button Tier.Easy).is_clicked pos = true <;>
    by_cases h4 : (difficulty_button Tier.Medium).is_clicked pos = true <;>
    by_cases h5 : (difficulty_button Tier.Hard).is_clicked pos = true <;>
    simp [h1, h2, h3, h4, h5]

theorem update_not_game (g : Game) (now : ℚ) (cand : Int × Int)
    (h : ¬g.state = GState.game) : g.update now cand = g := by
  unfold Game.update
  cases hs : g.state <;> simp_all

/-- Claim C10: the pairwise ≥ 2×targetSize separation of Alive targets is
preserved by every operation of the frame loop — session reset empties the
active set, an update step (game-over check, spawn attempt whose accepted
candidate is ≥ 2×size from every alive target, purge of Hit targets)
preserves it, and so does handling any input event (clicks only mark
targets Hit or reset the session; Escape and state changes leave targets
untouched). -/
theorem claim_C10 (g : Game) (now : ℚ) (cand : Int × Int) (ev : Event) :
    ((g.reset_game now).targets = [] ∧
      separated (g.reset_game now).targets (g.reset_game now).target_size) ∧
    (separated g.targets g.target_size →
      separated (g.update now cand).targets g.target_size) ∧
    (separated g.targets g.target_size → ∀ g2, g.handle_event now ev = some g2 →
      separated g2.targets g2.target_size) := by
  refine ⟨⟨rfl, List.Pairwise.nil⟩, ?_, ?_⟩
  · intro hsep
    by_cases hs : g.state = GState.game
    · rw [(update_game_parts g now cand hs).2.2.2.2]
      by_cases hc : now - g.last_spawn_time > g.spawn_rate ∧
          aliveCount g.targets < g.max_targets ∧
          valid_position g.targets g.target_size cand.1 cand.2 = true
      · rw [if_pos hc]
        rw [separated, List.pairwise_append]
        refine ⟨hsep.sublist (List.filter_sublist _),
          List.pairwise_singleton _ _, ?_⟩
        intro a ha b hb
        rcases List.mem_singleton.mp hb with rfl
        have ha2 : a ∈ g.targets := List.mem_of_mem_filter ha
        rcases valid_position_sound g.targets g.target_size cand.1 cand.2
          hc.2.2 a ha2 with hhit | hdist
        · exact Or.inl hhit
        · exact Or.inr (Or.inr hdist)
      · rw [if_neg hc, List.append_nil]
        exact hsep.sublist (List.filter_sublist _)
    · rw [update_not_game g now cand hs]
      exact hsep
  · intro hsep g2 hev
    cases ev with
    | quit => simp [Game.handle_event] at hev
    | keydown_escape =>
      by_cases hs : g.state = GState.game ∨ g.state = GState.game_over ∨
          g.state = GState.leaderboard
      · rw [Game.handle_event, if_pos hs] at hev
        cases hev
        exact hsep
      · rw [Game.handle_event, if_neg hs] at hev
        exact absurd hev (by simp)
    | keydown_other =>
      rw [Game.handle_event] at hev
      cases hev
      exact hsep
    | mousedown pos =>
      cases hstate : g.state with
      | home =>
        simp only [Game.handle_event, hstate, Option.some.injEq] at hev
        subst hev
        rcases handle_home_click_targets g now pos with h | ⟨ht, hsz⟩
        · rw [h]
          exact List.Pairwise.nil
        · rw [ht, hsz]
          exact hsep
      | game =>
        simp only [Game.handle_event, hstate] at hev
        by_cases hc : (clickTargets g.targets pos now).2 = true <;>
          simp only [hc, Bool.false_eq_true, if_true, if_false,
            Option.some.injEq] at hev <;>
          subst hev <;>
          exact sep_clickTargets g.targets pos now g.target_size hsep
      | game_over =>
        simp only [Game.handle_event, hstate, Option.some.injEq] at hev
        subst hev
        exact hsep
      | leaderboard =>
        simp only [Game.handle_event, hstate, Option.some.injEq] at hev
        subst hev
        exact hsep

/-- Concrete Playing-state game used to instantiate the claim C10 theorem:
two alive targets of size 30 well over 60 units apart. -/
def gC10 : Game :=
  { state := GState.game, difficulty := Tier.Medium, target_size := 30,
    spawn_rate := 1, max_targets := 6, score := 0,
    targets :=
      [{ x := 100, y := 100, size := 30, spawn_time := 1, is_hit := false, hit_time := 0 },
       { x := 200, y := 200, size := 30, spawn_time := 2, is_hit := false, hit_time := 0 }],
    last_spawn_time := 2, game_start_time := 0, leaderboard := Leaderboard.init }

/-- Result of clicking (100, 100) on gC10 at time 5: the first target is
marked Hit and the score is incremented. -/
def gC10res : Game :=
  { gC10 with
    targets :=
      [{ x := 100, y := 100, size := 30, spawn_time := 1, is_hit := true, hit_time := 5 },
       { x := 200, y := 200, size := 30, spawn_time := 2, is_hit := false, hit_time := 0 }],
    score := 1 }

/-- Witness for claim C10: the concrete separated state stays separated
through an update step and through a click that hits the first target. -/
theorem claim_C10_witness :
    separated gC10.targets gC10.target_size ∧
    separated (gC10.update 5 (7, 7)).targets gC10.target_size ∧
    gC10.handle_event 5 (Event.mousedown (100, 100)) = some gC10res ∧
    separated gC10res.targets gC10res.target_size :=
  ⟨by decide,
   (claim_C10 gC10 5 (7, 7) (Event.mousedown (100, 100))).2.1 (by decide),
   by decide,
   (claim_C10 gC10 5 (7, 7) (Event.mousedown (100, 100))).2.2 (by decide)
     gC10res (by decide)⟩

/-- Concrete starting leaderboard used to instantiate the claim C5 theorem. -/
def lbC5 : Leaderboard :=
  { scores := [("Easy", [80, 50, 30])], saved := [("Easy", [80, 50, 30])] }

/-- Witness for claim C5 at a concrete store: adding 80 to a tier holding
[80, 50, 30]. -/
theorem claim_C5_witness :
    List.Sorted (· ≥ ·) (((lbC5.add_score "Easy" 80).scores.lookup "Easy").getD []) ∧
    (((lbC5.add_score "Easy" 80).scores.lookup "Easy").getD []).length ≤ 10 ∧
    (∃ dropped,
      ((lbC5.scores.lookup "Easy").getD [] ++ [80]).Perm
        ((((lbC5.add_score "Easy" 80).scores.lookup "Easy").getD []) ++ dropped) ∧
      ∀ d ∈ dropped, ∀ k ∈ ((lbC5.add_score "Easy" 80).scores.lookup "Easy").getD [],
        d ≤ k) ∧
    (lbC5.add_score "Easy" 80).saved = (lbC5.add_score "Easy" 80).scores ∧
    ((((Leaderboard.init.add_score "Easy" 50).add_score "Easy" 80).add_score
        "Easy" 30).add_score "Easy" 80).scores.lookup "Easy" =
      some [80, 80, 50, 30] ∧
    (({ scores := [("Easy", [10, 9, 8, 7, 6, 5, 4, 3, 2, 1])],
        saved := [("Easy", [10, 9, 8, 7, 6, 5, 4, 3, 2, 1])] } :
        Leaderboard).add_score "Easy" 11).scores.lookup "Easy" =
      some [11, 10, 9, 8, 7, 6, 5, 4, 3, 2] :=
  claim_C5 lbC5 "Easy" 80
